import Mathlib

/-!
Verification of the `SportsCar` state machine from `src/Lec-02/abstraction.ts`.

The TypeScript class `SportsCar` (implementing interface `Car`) holds
`brand`, `model`, `isEngineOn`, `currentSpeed`, `currentGear` and exposes
five operations.  Each operation mutates the state and prints transcript
lines; we embed each as a pure function `SportsCar → SportsCar × List String`
returning the new state and the emitted lines, in emission order.
-/

/-- State of the `SportsCar` class: `brand` and `model` are set at
construction; `isEngineOn` starts `false`, `currentSpeed` and `currentGear`
start at `0`. -/
structure SportsCar where
  brand : String
  model : String
  isEngineOn : Bool
  currentSpeed : Int
  currentGear : Int
deriving DecidableEq, Repr

/-- The constructor `new SportsCar(brand, model)`. -/
def mkSportsCar (brand model : String) : SportsCar :=
  { brand := brand, model := model, isEngineOn := false,
    currentSpeed := 0, currentGear := 0 }

/-- `startEngine`: sets `isEngineOn := true` and prints the start message. -/
def startEngine (c : SportsCar) : SportsCar × List String :=
  ({ c with isEngineOn := true },
   [c.brand ++ " " ++ c.model ++ ": Engine start with a roar..."])

/-- `shiftGear`: if the engine is off, print the engine-off line and return
unchanged; otherwise, if `currentGear == 6` print the warning (without
blocking), then increment `currentGear` and print the shifted-gear line. -/
def shiftGear (c : SportsCar) : SportsCar × List String :=
  if !c.isEngineOn then
    (c, [c.brand ++ " " ++ c.model ++ " : Engine is off! Cannot shift a gear."])
  else
    let warn : List String :=
      if c.currentGear == 6 then ["You cannot shift gear now"] else []
    let c2 := { c with currentGear := c.currentGear + 1 }
    (c2, warn ++
      [c.brand ++ " " ++ c.model ++ " : Shifted to gear " ++
        toString c2.currentGear])

/-- `accelerate`: if the engine is off, print the engine-off line and return
unchanged; otherwise add 20 to `currentSpeed` and print the new speed. -/
def accelerate (c : SportsCar) : SportsCar × List String :=
  if !c.isEngineOn then
    (c, [c.brand ++ " " ++ c.model ++ " : Engine is off! Cannot accelerate."])
  else
    let c2 := { c with currentSpeed := c.currentSpeed + 20 }
    (c2, [c.brand ++ " " ++ c.model ++ " : accelerating to gear " ++
      toString c2.currentSpeed ++ " km/h."])

/-- `brake`: no engine check; subtract 20 from `currentSpeed`, clamp a
negative result to 0, decrement `currentGear`, print the combined line. -/
def brake (c : SportsCar) : SportsCar × List String :=
  let s1 := c.currentSpeed - 20
  let s2 := if s1 < 0 then 0 else s1
  let c2 := { c with currentSpeed := s2, currentGear := c.currentGear - 1 }
  (c2, [c.brand ++ " " ++ c.model ++ " : Braking! Speed is now " ++
    toString c2.currentSpeed ++ " km/h, and Gear lowered to " ++
    toString c2.currentGear])

/-- `stopEngine`: unconditionally sets `isEngineOn := false`,
`currentGear := 0`, `currentSpeed := 0`, and prints the stop message. -/
def stopEngine (c : SportsCar) : SportsCar × List String :=
  ({ c with isEngineOn := false, currentGear := 0, currentSpeed := 0 },
   [c.brand ++ " " ++ c.model ++ " : Engine turned off."])

/-- The five operations of the `Car` interface, as abstract labels for
reasoning about operation sequences. -/
inductive Op where
  | startEngine
  | shiftGear
  | accelerate
  | brake
  | stopEngine
deriving DecidableEq, Repr

/-- Apply one operation to a state, keeping only the state component. -/
def step (c : SportsCar) : Op → SportsCar
  | Op.startEngine => (startEngine c).1
  | Op.shiftGear => (shiftGear c).1
  | Op.accelerate => (accelerate c).1
  | Op.brake => (brake c).1
  | Op.stopEngine => (stopEngine c).1

/-- Run a sequence of operations from a state. -/
def run (c : SportsCar) (ops : List Op) : SportsCar :=
  ops.foldl step c

/-- The single driver instance `const myCar = new SportsCar("Ford", "Mustang")`. -/
def myCar : SportsCar := mkSportsCar "Ford" "Mustang"

/-- The hardcoded driver sequence of calls made against `myCar` at the bottom
of `abstraction.ts`, in source order. -/
def driverOps : List Op :=
  [Op.startEngine, Op.shiftGear, Op.accelerate, Op.shiftGear, Op.accelerate,
   Op.brake, Op.shiftGear, Op.accelerate, Op.shiftGear, Op.brake,
   Op.stopEngine]

theorem run_nil (c : SportsCar) : run c [] = c := rfl

theorem run_cons (c : SportsCar) (op : Op) (ops : List Op) :
    run c (op :: ops) = run (step c op) ops := rfl

theorem step_speed_nonneg (c : SportsCar) (op : Op)
    (h : 0 ≤ c.currentSpeed) : 0 ≤ (step c op).currentSpeed := by
  cases op
  · exact h
  · show 0 ≤ (shiftGear c).1.currentSpeed
    simp only [shiftGear]
    split
    · exact h
    · exact h
  · show 0 ≤ (accelerate c).1.currentSpeed
    simp only [accelerate]
    split
    · exact h
    · show 0 ≤ c.currentSpeed + 20
      omega
  · show 0 ≤ (if c.currentSpeed - 20 < 0 then 0 else c.currentSpeed - 20 : Int)
    split <;> omega
  · exact le_refl 0

theorem run_speed_nonneg (ops : List Op) (c : SportsCar)
    (h : 0 ≤ c.currentSpeed) : 0 ≤ (run c ops).currentSpeed := by
  induction ops generalizing c with
  | nil => exact h
  | cons op ops ih =>
      rw [run_cons]
      exact ih _ (step_speed_nonneg c op h)

theorem step_speed_dvd (c : SportsCar) (op : Op)
    (h : (20 : Int) ∣ c.currentSpeed) : (20 : Int) ∣ (step c op).currentSpeed := by
  cases op
  · exact h
  · show (20 : Int) ∣ (shiftGear c).1.currentSpeed
    simp only [shiftGear]
    split
    · exact h
    · exact h
  · show (20 : Int) ∣ (accelerate c).1.currentSpeed
    simp only [accelerate]
    split
    · exact h
    · show (20 : Int) ∣ c.currentSpeed + 20
      omega
  · show (20 : Int) ∣ (if c.currentSpeed - 20 < 0 then 0 else c.currentSpeed - 20 : Int)
    split
    · exact ⟨0, rfl⟩
    · omega
  · exact ⟨0, rfl⟩

theorem run_speed_dvd (ops : List Op) (c : SportsCar)
    (h : (20 : Int) ∣ c.currentSpeed) : (20 : Int) ∣ (run c ops).currentSpeed := by
  induction ops generalizing c with
  | nil => exact h
  | cons op ops ih =>
      rw [run_cons]
      exact ih _ (step_speed_dvd c op h)

/-- C1: for every sequence of the five operations applied to a freshly
constructed vehicle, `speedKmh` (`currentSpeed`) is never negative; since
this holds for every sequence, it holds after every prefix of a sequence. -/
theorem speed_never_negative (brand model : String) (ops : List Op) :
    0 ≤ (run (mkSportsCar brand model) ops).currentSpeed :=
  run_speed_nonneg ops _ (by simp [mkSportsCar])

/-- C2: from any state with the engine running and `currentGear = 6`,
`shiftGear` emits the "cannot shift" advisory and still increments the gear
to 7; the emitted transcript is the advisory followed by the shifted line. -/
theorem shiftGear_at_six (c : SportsCar) (heng : c.isEngineOn = true)
    (hg : c.currentGear = 6) :
    (shiftGear c).1.currentGear = 7 ∧
      "You cannot shift gear now" ∈ (shiftGear c).2 := by
  simp [shiftGear, heng, hg]

/-- A concrete state with the engine running in sixth gear, used as a
witness input. -/
def carAtSix : SportsCar :=
  { brand := "Ford", model := "Mustang", isEngineOn := true,
    currentSpeed := 40, currentGear := 6 }

/-- C2 witness at a concrete state. -/
theorem shiftGear_at_six_witness :
    (shiftGear carAtSix).1.currentGear = 7 ∧
    "You cannot shift gear now" ∈ (shiftGear carAtSix).2 :=
  shiftGear_at_six carAtSix rfl rfl

/-- C3: with the engine off, `accelerate` and `shiftGear` return the state
completely unchanged (gear, speed, engine flag, brand, model) and emit
exactly the one "engine off" transcript line. -/
theorem engine_off_noop (c : SportsCar) (h : c.isEngineOn = false) :
    (shiftGear c).1 = c ∧
    (shiftGear c).2 =
      [c.brand ++ " " ++ c.model ++ " : Engine is off! Cannot shift a gear."] ∧
    (accelerate c).1 = c ∧
    (accelerate c).2 =
      [c.brand ++ " " ++ c.model ++ " : Engine is off! Cannot accelerate."] := by
  simp [shiftGear, accelerate, h]

/-- C3 witness at a concrete state. -/
theorem engine_off_noop_witness :
    (shiftGear myCar).1 = myCar ∧
    (shiftGear myCar).2 =
      [myCar.brand ++ " " ++ myCar.model ++
        " : Engine is off! Cannot shift a gear."] ∧
    (accelerate myCar).1 = myCar ∧
    (accelerate myCar).2 =
      [myCar.brand ++ " " ++ myCar.model ++
        " : Engine is off! Cannot accelerate."] :=
  engine_off_noop myCar rfl

/-- C4: from every prior state, `stopEngine` yields engine off, gear 0 and
speed 0. -/
theorem stopEngine_resets (c : SportsCar) :
    (stopEngine c).1.isEngineOn = false ∧
    (stopEngine c).1.currentGear = 0 ∧
    (stopEngine c).1.currentSpeed = 0 := by
  simp [stopEngine]

/-- C5: `brake` has no engine precondition: in every state it sets the speed
to `max 0 (speed - 20)` and decrements the gear by one with no lower clamp,
leaving the engine flag and identity untouched; in particular from the fresh
vehicle (engine off, gear 0) the gear becomes negative. -/
theorem brake_spec (c : SportsCar) :
    (brake c).1.currentSpeed = max 0 (c.currentSpeed - 20) ∧
    (brake c).1.currentGear = c.currentGear - 1 ∧
    (brake c).1.isEngineOn = c.isEngineOn ∧
    (brake c).1.brand = c.brand ∧
    (brake c).1.model = c.model ∧
    (brake (mkSportsCar "Ford" "Mustang")).1.currentGear < 0 := by
  refine ⟨?_, rfl, rfl, rfl, rfl, by decide⟩
  simp only [brake]
  split <;> omega

/-- C6: the fixed driver sequence from the fresh `myCar` passes through the
stated intermediate gears and speeds and ends with engine off, gear 0,
speed 0. -/
theorem driver_trace :
    (run myCar (driverOps.take 2)).currentGear = 1 ∧
    (run myCar (driverOps.take 3)).currentSpeed = 20 ∧
    (run myCar (driverOps.take 4)).currentGear = 2 ∧
    (run myCar (driverOps.take 5)).currentSpeed = 40 ∧
    (run myCar (driverOps.take 6)).currentSpeed = 20 ∧
    (run myCar (driverOps.take 6)).currentGear = 1 ∧
    (run myCar (driverOps.take 7)).currentGear = 2 ∧
    (run myCar (driverOps.take 8)).currentSpeed = 40 ∧
    (run myCar (driverOps.take 9)).currentGear = 3 ∧
    (run myCar (driverOps.take 10)).currentSpeed = 20 ∧
    (run myCar (driverOps.take 10)).currentGear = 2 ∧
    (run myCar driverOps).isEngineOn = false ∧
    (run myCar driverOps).currentGear = 0 ∧
    (run myCar driverOps).currentSpeed = 0 := by
  decide

/-- C7 counterexample: the hardcoded driver script does not consist of nine
operation calls — it makes eleven. -/
theorem driver_not_nine_calls : driverOps.length ≠ 9 := by decide

/-- C7 (amended): the hardcoded driver script consists of exactly eleven
operation calls against the single vehicle instance constructed with brand
"Ford" and model "Mustang". -/
theorem driver_eleven_calls :
    driverOps.length = 11 ∧ myCar.brand = "Ford" ∧ myCar.model = "Mustang" := by
  refine ⟨by decide, rfl, rfl⟩

/-- C8: in every state, `startEngine` sets the engine flag to true and
changes nothing else: gear, speed, brand and model are all unchanged. -/
theorem startEngine_frame (c : SportsCar) :
    (startEngine c).1.isEngineOn = true ∧
    (startEngine c).1.currentGear = c.currentGear ∧
    (startEngine c).1.currentSpeed = c.currentSpeed ∧
    (startEngine c).1.brand = c.brand ∧
    (startEngine c).1.model = c.model := by
  simp [startEngine]

/-- C9: for every sequence of operations applied to a freshly constructed
vehicle, `speedKmh` (`currentSpeed`) stays a multiple of 20. -/
theorem speed_multiple_of_twenty (brand model : String) (ops : List Op) :
    (20 : Int) ∣ (run (mkSportsCar brand model) ops).currentSpeed :=
  run_speed_dvd ops _ ⟨0, rfl⟩

/-- C10: `stopEngine` is idempotent on the state: applying it twice yields
the same state as applying it once. -/
theorem stopEngine_idempotent (c : SportsCar) :
    (stopEngine (stopEngine c).1).1 = (stopEngine c).1 := by
  simp [stopEngine]
